import Mathlib

/-!
Shallow embedding of the core numeric routines of the bcdi repository
(src/bcdi/preprocessing/bcdi_utils.py and src/bcdi/postprocessing/process_scan.py)
together with proofs settling the frozen claims C1 to C10.

Conventions of the embedding:
- Python floats are modelled by rational numbers; the float NaN is modelled by
  the value none of Option (see the regridding section).
- 3D numpy arrays are nested lists (axis order z, y, x as in the source); the
  source validates them as rectangular ndarrays, so rectangularity is assumed
  where noted.
- In-place numpy mutation becomes explicit state passing; a raised Python
  exception becomes an Except.error carrying the message text, so a run that
  raises returns no arrays at all.
- Python floor division (//) is Int.fdiv; Python % on integers is Int.emod
  (both produce a result with the sign of the divisor, matching Python).
- Batteries marks rational addition and multiplication irreducible, so the
  center-of-mass accumulation keeps explicit numerator/denominator pairs in
  integer arithmetic and builds the final rational with Rat.divInt; the value
  computed is exactly sum(index * weight) / sum(weight) per axis.
-/

/-! ## Generic helpers: Python indexing and slicing on lists -/

/-- Values of a 3D float array: rationals. -/
abbrev A3 := List (List (List ℚ))

/-- Shape of a 3D array, as numpy np.shape for a rectangular array. -/
def shape3 (a : A3) : ℕ × ℕ × ℕ :=
  (a.length, (a.headD []).length, ((a.headD []).headD []).length)

/-- Python indexing semantics for one axis of length n: indices in [0, n) are
kept, indices in [-n, 0) wrap around, anything else raises IndexError (none). -/
def pyIndex (n : ℕ) (i : ℤ) : Option ℕ :=
  if 0 ≤ i ∧ i < (n : ℤ) then some i.toNat
  else if -(n : ℤ) ≤ i ∧ i < 0 then some (i + (n : ℤ)).toNat
  else none

/-- Normalization of a Python slice bound for an axis of length n. -/
def pySliceBound (n : ℕ) (i : ℤ) : ℕ :=
  (if i < 0 then max 0 ((n : ℤ) + i) else min i (n : ℤ)).toNat

/-- Python slice xs[l:r] with step 1 (clamping and negative-bound wrap). -/
def pySlice (l r : ℤ) (xs : List α) : List α :=
  let a := pySliceBound xs.length l
  let b := pySliceBound xs.length r
  (xs.drop a).take (b - a)

/-- Numpy slice assignment xs[l:r] = v with a scalar v (broadcast). -/
def setSliceScalar (l r : ℤ) (v : α) (xs : List α) : List α :=
  let a := pySliceBound xs.length l
  let b := pySliceBound xs.length r
  xs.mapIdx (fun i x => if a ≤ i ∧ i < b then v else x)

/-- Numpy slice assignment xs[l:r] = src with an array src: raises a broadcast
ValueError unless the slice length equals the length of src. -/
def setSliceArr (l r : ℤ) (src : List α) (xs : List α) : Except String (List α) :=
  let a := pySliceBound xs.length l
  let b := pySliceBound xs.length r
  let len := b - a
  if src.length = len then Except.ok (xs.take a ++ src ++ xs.drop (a + len))
  else Except.error "ValueError: could not broadcast input array"

/-- 3D slicing data[z1:z2, y1:y2, x1:x2]. -/
def slice3 (z1 z2 y1 y2 x1 x2 : ℤ) (a : A3) : A3 :=
  (pySlice z1 z2 a).map (fun plane => (pySlice y1 y2 plane).map (pySlice x1 x2))

/-! ## FFT-size helpers

The functions util.smaller_primes and util.higher_primes live in
bcdi/utils/utilities.py, which is not under src/.
Modelled from the spec: an axis length is FFT-compatible when its largest
prime factor is at most 7 and it is divisible by 2; smaller_primes returns the
largest compatible size at most n (an error when none exists), higher_primes
the smallest compatible size at least n. -/

/-- Divide n by p as long as p divides n, with explicit fuel (structural
recursion keeps the definition kernel-evaluable). -/
def stripDiv (p : ℕ) : ℕ → ℕ → ℕ
  | 0, n => n
  | fuel + 1, n => if 1 < n ∧ n % p = 0 then stripDiv p fuel (n / p) else n

/-- Modelled from the spec: the FFT-size constraint, largest prime factor at
most 7 and divisible by 2 (required divider 2 in the source calls). -/
def fft_compatible (n : ℕ) : Bool :=
  decide (0 < n) && n % 2 == 0 &&
    (stripDiv 7 n (stripDiv 5 n (stripDiv 3 n (stripDiv 2 n n))) == 1)

/-- Modelled from the spec: util.higher_primes with maxprime 7 and required
divider 2, the smallest FFT-compatible size at least n.  A compatible size
always exists in [n, 2n + 3] (a power of two), so the getD fallback 2n + 4 is
never returned. -/
def higher_primes (n : ℕ) : ℕ :=
  (((List.range (2 * n + 4)).filter (fun m => decide (n ≤ m) && fft_compatible m)).head?).getD
    (2 * n + 4)

/-- Modelled from the spec: util.smaller_primes with maxprime 7 and required
divider 2, the largest FFT-compatible size at most n; none models the
ValueError raised when no compatible size exists. -/
def smaller_primes (n : ℕ) : Option ℕ :=
  ((List.range (n + 1)).filter (fun m => fft_compatible m)).getLast?

/-- smaller_primes on the integer-valued maximal-box sizes; a negative input
has no compatible size below it. -/
def smaller_primesZ (z : ℤ) : Option ℕ :=
  if z < 0 then none else smaller_primes z.toNat

/-! ## Rounding and rational utilities -/

/-- Python round / numpy rint on an exact rational: round half to even.
Implemented on numerator and denominator with integer arithmetic only. -/
def roundHalfEven (q : ℚ) : ℤ :=
  let f := Int.fdiv q.num q.den
  let t := 2 * (q.num - f * (q.den : ℤ))
  if t < (q.den : ℤ) then f
  else if (q.den : ℤ) < t then f + 1
  else if f % 2 = 0 then f else f + 1

/-- Comparison of absolute values of two rationals using cross multiplication:
ratAbsLt a b is true exactly when the absolute value of a is less than the
absolute value of b. -/
def ratAbsLt (a b : ℚ) : Bool :=
  a.num.natAbs * b.den < b.num.natAbs * a.den

/-- All voxels of a 3D array with their (z, y, x) index, in row-major order. -/
def enum3 (a : A3) : List ((ℕ × ℕ × ℕ) × ℚ) :=
  ((a.mapIdx (fun i plane =>
      plane.mapIdx (fun j row => row.mapIdx (fun k v => ((i, j, k), v))))).flatten).flatten

/-- np.unravel_index(abs(a).argmax(), a.shape): index of the first occurrence
of the maximal absolute value in row-major order; none for an empty array
(where numpy argmax raises). -/
def argmax3 (a : A3) : Option (ℕ × ℕ × ℕ) :=
  match enum3 a with
  | [] => none
  | h :: t =>
      some ((t.foldl (fun best x => if ratAbsLt best.2 x.2 then x else best) h).1)

/-- Exact addition of two integer fractions, without normalization. -/
def addFrac (p q : ℤ × ℤ) : ℤ × ℤ := (p.1 * q.2 + q.1 * p.2, p.2 * q.2)

/-- An integer multiple of an integer fraction. -/
def scaleFrac (k : ℤ) (p : ℤ × ℤ) : ℤ × ℤ := (k * p.1, p.2)

/-- The rational q as an integer fraction. -/
def ratFrac (q : ℚ) : ℤ × ℤ := (q.num, (q.den : ℤ))

/-- The quotient of two integer fractions as a rational. -/
def fracDiv (p q : ℤ × ℤ) : ℚ := Rat.divInt (p.1 * q.2) (p.2 * q.1)

/-- scipy.ndimage.center_of_mass on a 3D array: the intensity-weighted mean
index per axis; none models the NaN produced when the total weight is zero
(converting that NaN to an integer raises later in the source). -/
def center_of_mass3 (a : A3) : Option (ℚ × ℚ × ℚ) :=
  let items := enum3 a
  let total := items.foldl (fun acc x => addFrac acc (ratFrac x.2)) (0, 1)
  if total.1 = 0 then none
  else
    let sz := items.foldl (fun acc x => addFrac acc (scaleFrac x.1.1 (ratFrac x.2))) (0, 1)
    let sy := items.foldl (fun acc x => addFrac acc (scaleFrac x.1.2.1 (ratFrac x.2))) (0, 1)
    let sx := items.foldl (fun acc x => addFrac acc (scaleFrac x.1.2.2 (ratFrac x.2))) (0, 1)
    some (fracDiv sz total, fracDiv sy total, fracDiv sx total)

/-- All pixels of a 2D array with their (y, x) index, in row-major order. -/
def enum2 (a : List (List ℚ)) : List ((ℕ × ℕ) × ℚ) :=
  (a.mapIdx (fun j row => row.mapIdx (fun k v => ((j, k), v)))).flatten

/-- scipy.ndimage.center_of_mass on a 2D array (one detector frame). -/
def center_of_mass2 (a : List (List ℚ)) : Option (ℚ × ℚ) :=
  let items := enum2 a
  let total := items.foldl (fun acc x => addFrac acc (ratFrac x.2)) (0, 1)
  if total.1 = 0 then none
  else
    let sy := items.foldl (fun acc x => addFrac acc (scaleFrac x.1.1 (ratFrac x.2))) (0, 1)
    let sx := items.foldl (fun acc x => addFrac acc (scaleFrac x.1.2 (ratFrac x.2))) (0, 1)
    some (fracDiv sy total, fracDiv sx total)

/-! ## center_fft (src/bcdi/preprocessing/bcdi_utils.py, lines 411-951)

The Detector class lives in bcdi/experiment/detector.py, which is not under
src/.  Modelled from the spec: it carries the region of interest
[y_start, y_stop, x_start, x_stop] and the per-axis binning factors used by
the fix_bragg remapping in center_fft. -/

/-- Modelled from the spec: the detector geometry fields read by center_fft. -/
structure Detector where
  roi : List ℤ
  preprocessing_binning : List ℤ
  binning : List ℤ

/-- Optional q axes passed to center_fft: (qx, qz, qy), each a 1D vector.
The none case models both an explicit None and the empty default (in which
case the source never touches the q branch conditions in the same way, see
the comment on center_fft). -/
abbrev QV := Option (List ℚ × List ℚ × List ℚ)

/-- Return value of center_fft: data, mask, pad_width = [z0, z1, y0, y1, x0, x1],
q_values and frames_logical. -/
structure CenterFFTResult where
  data : A3
  mask : A3
  pad_width : List ℤ
  q_values : QV
  frames_logical : List ℤ
  deriving DecidableEq

-- decidable equality on Except results, for concrete evaluation
deriving instance DecidableEq for Except

/-- Lines 489-530 of bcdi_utils.py: resolve the center voxel (z0, y0, x0) by
the centering method ("max", "com", anything else falls to the max_com
branch), apply the optional fix_bragg override with the detector ROI/binning
remap, round to integers, and evaluate the two logging reads that can raise:
the q-axis reads in the max/com branches and the data peak read of line 530
(Python indexing, so negative indices wrap).  Errors model the exceptions
raised by the corresponding source lines. -/
def resolveCenterFull (data : A3) (detector : Detector) (centering : String)
    (fix_bragg : Option (List ℚ)) (q_values : QV) :
    Except String (ℤ × ℤ × ℤ) :=
  let resolved : Except String (ℚ × ℚ × ℚ) :=
    if centering = "max" then
      match argmax3 data with
      | none => Except.error "ValueError: attempt to get argmax of an empty sequence"
      | some (i, j, k) =>
          match q_values with
          | none => Except.ok (Rat.divInt i 1, Rat.divInt j 1, Rat.divInt k 1)
          | some (qx, qz, qy) =>
              -- logging reads qx[z0], qz[y0], qy[x0]
              if i < qx.length ∧ j < qz.length ∧ k < qy.length then
                Except.ok (Rat.divInt i 1, Rat.divInt j 1, Rat.divInt k 1)
              else Except.error "IndexError: index out of bounds for q axis"
    else if centering = "com" then
      -- the logging reads qx[z0] with a float z0, which numpy rejects
      match q_values with
      | some _ => Except.error "IndexError: arrays used as indices must be of integer type"
      | none =>
          match center_of_mass3 data with
          | none => Except.error "ValueError: cannot convert float NaN to integer"
          | some c => Except.ok c
    else
      -- the max_com branch, taken for any other value of centering
      match argmax3 data with
      | none => Except.error "ValueError: attempt to get argmax of an empty sequence"
      | some (i, _, _) =>
          match center_of_mass2 (data.getD i []) with
          | none => Except.error "ValueError: cannot convert float NaN to integer"
          | some (cy, cx) =>
              Except.ok (Rat.divInt i 1, Rat.divInt (roundHalfEven cy) 1,
                Rat.divInt (roundHalfEven cx) 1)
  match resolved with
  | Except.error e => Except.error e
  | Except.ok (z0, y0, x0) =>
    let withFix : Except String (ℚ × ℚ × ℚ) :=
      match fix_bragg with
      | none => Except.ok (z0, y0, x0)
      | some fb =>
          if fb.length ≠ 3 then Except.error "ValueError: fix_bragg should be a list of 3 integers"
          else
            let pb1 := detector.preprocessing_binning.getD 1 0 * detector.binning.getD 1 0
            let pb2 := detector.preprocessing_binning.getD 2 0 * detector.binning.getD 2 0
            if pb1 = 0 ∨ pb2 = 0 then Except.error "ZeroDivisionError"
            else
              Except.ok (fb.getD 0 0,
                (fb.getD 1 0 - Rat.divInt (detector.roi.getD 0 0) 1) / Rat.divInt pb1 1,
                (fb.getD 2 0 - Rat.divInt (detector.roi.getD 2 0) 1) / Rat.divInt pb2 1)
    match withFix with
    | Except.error e => Except.error e
    | Except.ok (z1, y1, x1) =>
      let iz0 := roundHalfEven z1
      let iy0 := roundHalfEven y1
      let ix0 := roundHalfEven x1
      -- line 530 logs data[iz0, iy0, ix0], which raises when out of bounds
      let (nbz, nby, nbx) := shape3 data
      match pyIndex nbz iz0, pyIndex nby iy0, pyIndex nbx ix0 with
      | some _, some _, some _ => Except.ok (iz0, iy0, ix0)
      | _, _, _ => Except.error "IndexError: index out of bounds for data"

/-- zero_pad (bcdi_utils.py lines 1643-1701): surround a 3D array with a
constant frame; pads with 1 when mask_flag is set, with 0 otherwise.  A
negative padding width makes numpy fail (negative dimension or broadcast
mismatch on the window copy), modelled as a single error. -/
def zero_pad (array : A3) (padding_width : List ℤ) (mask_flag : Bool) :
    Except String A3 :=
  let w : ℕ → ℤ := fun i => padding_width.getD i 0
  if w 0 < 0 ∨ w 1 < 0 ∨ w 2 < 0 ∨ w 3 < 0 ∨ w 4 < 0 ∨ w 5 < 0 then
    Except.error "ValueError: negative padding width"
  else
    let s := shape3 array
    let v : ℚ := if mask_flag then 1 else 0
    let nyP := s.2.1 + (w 2).toNat + (w 3).toNat
    let nxP := s.2.2 + (w 4).toNat + (w 5).toNat
    let padRow : List ℚ → List ℚ := fun row =>
      List.replicate (w 4).toNat v ++ row ++ List.replicate (w 5).toNat v
    let padPlane : List (List ℚ) → List (List ℚ) := fun pl =>
      List.replicate (w 2).toNat (List.replicate nxP v) ++ pl.map padRow ++
        List.replicate (w 3).toNat (List.replicate nxP v)
    let fullPlane := List.replicate nyP (List.replicate nxP v)
    Except.ok (List.replicate (w 0).toNat fullPlane ++ array.map padPlane ++
      List.replicate (w 1).toNat fullPlane)

/-- Lines 637-639 (and their copies in every padding branch): build
temp_frames = -1 * np.ones(new_z_extent) and copy the old frames_logical into
the window [w0, w0 + nbz). -/
def pad_update_frames (newLen : ℕ) (w0 : ℤ) (nbz : ℕ) (frames : List ℤ) :
    Except String (List ℤ) :=
  setSliceArr w0 (w0 + (nbz : ℤ)) frames (List.replicate newLen (-1))

/-- Extension of a q axis after padding (lines 641-644 and copies): the step
is q[1] - q[0] (IndexError when the axis has fewer than two samples), the new
origin is q[0] - w * step, and count samples are generated. -/
def pad_extend_q (w : ℤ) (count : ℕ) (q : List ℚ) : Except String (List ℚ) :=
  match q with
  | a :: b :: _ =>
      let dq := b - a
      let q0 := a - Rat.divInt w 1 * dq
      Except.ok ((List.range count).map (fun i => q0 + Rat.divInt i 1 * dq))
  | _ => Except.error "IndexError: q axis too short"

/-- Lines 566-569 (and their copy in crop_asym_ZYX): mark the frames sliced
away by the z crop as 0 in frames_logical, via the two conditional numpy
slice assignments frames_logical[0 : z1] = 0 and frames_logical[z2 :] = 0. -/
def crop_update_frames (z1 z2 : ℤ) (nbz : ℕ) (frames : List ℤ) : List ℤ :=
  let f1 := if 0 < z1 then setSliceScalar 0 z1 0 frames else frames
  if z2 < (nbz : ℤ) then setSliceScalar z2 (f1.length : ℤ) 0 f1 else f1

/-- Branch crop_sym_ZYX (lines 547-574): crop all axes to FFT sizes, Bragg
peak centered; frames cut away by the z crop are set to 0 in frames_logical
(the array keeps its length). -/
def branch_crop_sym_ZYX (data mask : A3) (frames : List ℤ) (q : QV)
    (iz0 iy0 ix0 : ℤ) (nbz : ℕ) (max_nz max_ny max_nx : ℤ) :
    Except String CenterFFTResult :=
  match smaller_primesZ max_nz, smaller_primesZ max_ny, smaller_primesZ max_nx with
  | some nz1, some ny1, some nx1 =>
      let data2 := slice3 (iz0 - (nz1 / 2 : ℕ)) (iz0 + (nz1 / 2 : ℕ))
        (iy0 - (ny1 / 2 : ℕ)) (iy0 + (ny1 / 2 : ℕ))
        (ix0 - (nx1 / 2 : ℕ)) (ix0 + (nx1 / 2 : ℕ)) data
      let mask2 := slice3 (iz0 - (nz1 / 2 : ℕ)) (iz0 + (nz1 / 2 : ℕ))
        (iy0 - (ny1 / 2 : ℕ)) (iy0 + (ny1 / 2 : ℕ))
        (ix0 - (nx1 / 2 : ℕ)) (ix0 + (nx1 / 2 : ℕ)) mask
      let f2 := crop_update_frames (iz0 - (nz1 / 2 : ℕ)) (iz0 + (nz1 / 2 : ℕ)) nbz frames
      let q2 : QV :=
        match q with
        | none => none
        | some (qx, qz, qy) =>
            some (pySlice (iz0 - (nz1 / 2 : ℕ)) (iz0 + (nz1 / 2 : ℕ)) qx,
              pySlice (iy0 - (ny1 / 2 : ℕ)) (iy0 + (ny1 / 2 : ℕ)) qz,
              pySlice (ix0 - (nx1 / 2 : ℕ)) (ix0 + (nx1 / 2 : ℕ)) qy)
      Except.ok ⟨data2, mask2, [0, 0, 0, 0, 0, 0], q2, f2⟩
  | _, _, _ => Except.error "ValueError: no FFT-compatible size found"

/-- Branch crop_asym_ZYX (lines 576-603): crop all axes to FFT sizes around
the array midpoint, ignoring the peak. -/
def branch_crop_asym_ZYX (data mask : A3) (frames : List ℤ) (q : QV)
    (nbz nby nbx : ℕ) : Except String CenterFFTResult :=
  match smaller_primes nbz, smaller_primes nby, smaller_primes nbx with
  | some nz1, some ny1, some nx1 =>
      let z1 : ℤ := (nbz / 2 : ℕ) - (nz1 / 2 : ℕ)
      let z2 : ℤ := (nbz / 2 : ℕ) + (nz1 / 2 : ℕ)
      let y1 : ℤ := (nby / 2 : ℕ) - (ny1 / 2 : ℕ)
      let y2 : ℤ := (nby / 2 : ℕ) + (ny1 / 2 : ℕ)
      let x1 : ℤ := (nbx / 2 : ℕ) - (nx1 / 2 : ℕ)
      let x2 : ℤ := (nbx / 2 : ℕ) + (nx1 / 2 : ℕ)
      let data2 := slice3 z1 z2 y1 y2 x1 x2 data
      let mask2 := slice3 z1 z2 y1 y2 x1 x2 mask
      let f2 := crop_update_frames z1 z2 nbz frames
      let q2 : QV :=
        match q with
        | none => none
        | some (qx, qz, qy) =>
            some (pySlice z1 z2 qx, pySlice y1 y2 qz, pySlice x1 x2 qy)
      Except.ok ⟨data2, mask2, [0, 0, 0, 0, 0, 0], q2, f2⟩
  | _, _, _ => Except.error "ValueError: no FFT-compatible size found"

/-- Symmetric pad widths for the rocking axis from a user pad size (lines
620-630 and copies): [min(p0/2 - iz0, p0 - nbz), min(p0/2 - nbz + iz0,
p0 - nbz)].  p0 passed the FFT check, so it is even and p0/2 is exact. -/
def sym_pad_widths_z (p0 : ℕ) (iz0 : ℤ) (nbz : ℕ) : ℤ × ℤ :=
  (min ((p0 : ℤ) / 2 - iz0) ((p0 : ℤ) - (nbz : ℤ)),
   min ((p0 : ℤ) / 2 - (nbz : ℤ) + iz0) ((p0 : ℤ) - (nbz : ℤ)))

/-- Asymmetric pad widths for one axis grown from n to n1 (lines 710-719 and
copies): [ (d + d % 2) / 2, (d + 1) / 2 - d % 2 ] with d = n1 - n >= 0. -/
def asym_pad_widths (n1 n : ℕ) : ℤ × ℤ :=
  let d : ℤ := (n1 : ℤ) - (n : ℤ)
  ((d + d % 2) / 2, (d + 1) / 2 - d % 2)

/-- Shared tail of every padding branch: zero-pad data (with 0) and mask
(with 1), rebuild frames_logical as -1 everywhere except the copied window,
and extend/slice the q axes; qSel computes the new q triple from the padded
pad widths. -/
def pad_tail (data1 mask1 : A3) (frames : List ℤ) (q : QV)
    (pad_width : List ℤ) (nbz : ℕ)
    (qSel : List ℚ × List ℚ × List ℚ → Except String (List ℚ × List ℚ × List ℚ)) :
    Except String CenterFFTResult :=
  match zero_pad data1 pad_width false with
  | Except.error e => Except.error e
  | Except.ok data2 =>
    match zero_pad mask1 pad_width true with
    | Except.error e => Except.error e
    | Except.ok mask2 =>
      match pad_update_frames data2.length (pad_width.getD 0 0) nbz frames with
      | Except.error e => Except.error e
      | Except.ok f2 =>
        match q with
        | none => Except.ok ⟨data2, mask2, pad_width, none, f2⟩
        | some t =>
            match qSel t with
            | Except.error e => Except.error e
            | Except.ok t2 => Except.ok ⟨data2, mask2, pad_width, some t2, f2⟩

/-- Branch pad_sym_Z_crop_sym_YX (lines 605-646): FFT check on pad_size[0],
symmetric crop of the detector plane around the peak, symmetric pad of the
rocking axis. -/
def branch_pad_sym_Z_crop_sym_YX (data mask : A3) (frames : List ℤ) (q : QV)
    (iz0 iy0 ix0 : ℤ) (nbz : ℕ) (max_ny max_nx : ℤ) (pad_size : List ℕ) :
    Except String CenterFFTResult :=
  if pad_size.length ≠ 3 then
    Except.error "ValueError: pad_size should be a list of three elements"
  else if pad_size.getD 0 0 ≠ higher_primes (pad_size.getD 0 0) then
    Except.error "ValueError: pad_size does not meet FFT requirements"
  else
    match smaller_primesZ max_ny, smaller_primesZ max_nx with
    | some ny1, some nx1 =>
        let data1 := slice3 0 (nbz : ℤ) (iy0 - (ny1 / 2 : ℕ)) (iy0 + (ny1 / 2 : ℕ))
          (ix0 - (nx1 / 2 : ℕ)) (ix0 + (nx1 / 2 : ℕ)) data
        let mask1 := slice3 0 (nbz : ℤ) (iy0 - (ny1 / 2 : ℕ)) (iy0 + (ny1 / 2 : ℕ))
          (ix0 - (nx1 / 2 : ℕ)) (ix0 + (nx1 / 2 : ℕ)) mask
        let w := sym_pad_widths_z (pad_size.getD 0 0) iz0 nbz
        pad_tail data1 mask1 frames q [w.1, w.2, 0, 0, 0, 0] nbz
          (fun t =>
            match pad_extend_q w.1 (pad_size.getD 0 0) t.1 with
            | Except.error e => Except.error e
            | Except.ok qx2 =>
                Except.ok (qx2, pySlice (iy0 - (ny1 / 2 : ℕ)) (iy0 + (ny1 / 2 : ℕ)) t.2.1,
                  pySlice (ix0 - (nx1 / 2 : ℕ)) (ix0 + (nx1 / 2 : ℕ)) t.2.2))
    | _, _ => Except.error "ValueError: no FFT-compatible size found"

/-- Branch pad_sym_Z_crop_asym_YX (lines 648-698): FFT check on pad_size[0],
midpoint crop of the detector plane, symmetric pad of the rocking axis. -/
def branch_pad_sym_Z_crop_asym_YX (data mask : A3) (frames : List ℤ) (q : QV)
    (iz0 : ℤ) (nbz nby nbx : ℕ) (max_ny max_nx : ℤ) (pad_size : List ℕ) :
    Except String CenterFFTResult :=
  if pad_size.length ≠ 3 then
    Except.error "ValueError: pad_size should be a list of three elements"
  else if pad_size.getD 0 0 ≠ higher_primes (pad_size.getD 0 0) then
    Except.error "ValueError: pad_size does not meet FFT requirements"
  else
    match smaller_primesZ max_ny, smaller_primesZ max_nx with
    | some ny1, some nx1 =>
        let y1 : ℤ := (nby / 2 : ℕ) - (ny1 / 2 : ℕ)
        let y2 : ℤ := (nby / 2 : ℕ) + (ny1 / 2 : ℕ)
        let x1 : ℤ := (nbx / 2 : ℕ) - (nx1 / 2 : ℕ)
        let x2 : ℤ := (nbx / 2 : ℕ) + (nx1 / 2 : ℕ)
        let data1 := slice3 0 (nbz : ℤ) y1 y2 x1 x2 data
        let mask1 := slice3 0 (nbz : ℤ) y1 y2 x1 x2 mask
        let w := sym_pad_widths_z (pad_size.getD 0 0) iz0 nbz
        pad_tail data1 mask1 frames q [w.1, w.2, 0, 0, 0, 0] nbz
          (fun t =>
            match pad_extend_q w.1 (pad_size.getD 0 0) t.1 with
            | Except.error e => Except.error e
            | Except.ok qx2 =>
                Except.ok (qx2, pySlice y1 y2 t.2.1, pySlice x1 x2 t.2.2))
    | _, _ => Except.error "ValueError: no FFT-compatible size found"

/-- Branch pad_asym_Z_crop_sym_YX (lines 700-736): symmetric crop of the
detector plane around the peak, pad of the rocking axis to the next
FFT-compatible size without centering. -/
def branch_pad_asym_Z_crop_sym_YX (data mask : A3) (frames : List ℤ) (q : QV)
    (iy0 ix0 : ℤ) (nbz : ℕ) (max_ny max_nx : ℤ) :
    Except String CenterFFTResult :=
  match smaller_primesZ max_ny, smaller_primesZ max_nx with
  | some ny1, some nx1 =>
      let nz1 := higher_primes nbz
      let data1 := slice3 0 (nbz : ℤ) (iy0 - (ny1 / 2 : ℕ)) (iy0 + (ny1 / 2 : ℕ))
        (ix0 - (nx1 / 2 : ℕ)) (ix0 + (nx1 / 2 : ℕ)) data
      let mask1 := slice3 0 (nbz : ℤ) (iy0 - (ny1 / 2 : ℕ)) (iy0 + (ny1 / 2 : ℕ))
        (ix0 - (nx1 / 2 : ℕ)) (ix0 + (nx1 / 2 : ℕ)) mask
      let w := asym_pad_widths nz1 nbz
      pad_tail data1 mask1 frames q [w.1, w.2, 0, 0, 0, 0] nbz
        (fun t =>
          match pad_extend_q w.1 nz1 t.1 with
          | Except.error e => Except.error e
          | Except.ok qx2 =>
              Except.ok (qx2, pySlice (iy0 - (ny1 / 2 : ℕ)) (iy0 + (ny1 / 2 : ℕ)) t.2.1,
                pySlice (ix0 - (nx1 / 2 : ℕ)) (ix0 + (nx1 / 2 : ℕ)) t.2.2))
  | _, _ => Except.error "ValueError: no FFT-compatible size found"

/-- Branch pad_asym_Z_crop_asym_YX (lines 738-779): midpoint crop of the
detector plane, pad of the rocking axis to the next FFT-compatible size. -/
def branch_pad_asym_Z_crop_asym_YX (data mask : A3) (frames : List ℤ) (q : QV)
    (nbz nby nbx : ℕ) : Except String CenterFFTResult :=
  match smaller_primes nby, smaller_primes nbx with
  | some ny1, some nx1 =>
      let nz1 := higher_primes nbz
      let y1 : ℤ := (nby / 2 : ℕ) - (ny1 / 2 : ℕ)
      let y2 : ℤ := (nby / 2 : ℕ) + (ny1 / 2 : ℕ)
      let x1 : ℤ := (nbx / 2 : ℕ) - (nx1 / 2 : ℕ)
      let x2 : ℤ := (nbx / 2 : ℕ) + (nx1 / 2 : ℕ)
      let data1 := slice3 0 (nbz : ℤ) y1 y2 x1 x2 data
      let mask1 := slice3 0 (nbz : ℤ) y1 y2 x1 x2 mask
      let w := asym_pad_widths nz1 nbz
      pad_tail data1 mask1 frames q [w.1, w.2, 0, 0, 0, 0] nbz
        (fun t =>
          match pad_extend_q w.1 nz1 t.1 with
          | Except.error e => Except.error e
          | Except.ok qx2 => Except.ok (qx2, pySlice y1 y2 t.2.1, pySlice x1 x2 t.2.2))
  | _, _ => Except.error "ValueError: no FFT-compatible size found"

/-- Branch pad_sym_Z (lines 781-816): keep the detector size, pad the rocking
axis symmetrically to pad_size[0] after the FFT check. -/
def branch_pad_sym_Z (data mask : A3) (frames : List ℤ) (q : QV)
    (iz0 : ℤ) (nbz : ℕ) (pad_size : List ℕ) : Except String CenterFFTResult :=
  if pad_size.length ≠ 3 then
    Except.error "ValueError: pad_size should be a list of three elements"
  else if pad_size.getD 0 0 ≠ higher_primes (pad_size.getD 0 0) then
    Except.error "ValueError: pad_size does not meet FFT requirements"
  else
    let w := sym_pad_widths_z (pad_size.getD 0 0) iz0 nbz
    pad_tail data mask frames q [w.1, w.2, 0, 0, 0, 0] nbz
      (fun t =>
        match pad_extend_q w.1 (pad_size.getD 0 0) t.1 with
        | Except.error e => Except.error e
        | Except.ok qx2 => Except.ok (qx2, t.2.1, t.2.2))

/-- Branch pad_asym_Z (lines 818-846): keep the detector size, pad the rocking
axis to the next FFT-compatible size without centering. -/
def branch_pad_asym_Z (data mask : A3) (frames : List ℤ) (q : QV)
    (nbz : ℕ) : Except String CenterFFTResult :=
  let nz1 := higher_primes nbz
  let w := asym_pad_widths nz1 nbz
  pad_tail data mask frames q [w.1, w.2, 0, 0, 0, 0] nbz
    (fun t =>
      match pad_extend_q w.1 nz1 t.1 with
      | Except.error e => Except.error e
      | Except.ok qx2 => Except.ok (qx2, t.2.1, t.2.2))

/-- Branch pad_sym_ZYX (lines 848-900): FFT checks on all three entries of
pad_size, then symmetric padding of all axes with the negative widths clamped
to zero.  The q extension reuses the source index choices verbatim (qy0 from
pad_width[2] and qz0 from pad_width[1]). -/
def branch_pad_sym_ZYX (data mask : A3) (frames : List ℤ) (q : QV)
    (iz0 iy0 ix0 : ℤ) (nbz nby nbx : ℕ) (pad_size : List ℕ) :
    Except String CenterFFTResult :=
  if pad_size.length ≠ 3 then
    Except.error "ValueError: pad_size should be a list of 3 integers"
  else if pad_size.getD 0 0 ≠ higher_primes (pad_size.getD 0 0) then
    Except.error "ValueError: pad_size does not meet FFT requirements"
  else if pad_size.getD 1 0 ≠ higher_primes (pad_size.getD 1 0) then
    Except.error "ValueError: pad_size does not meet FFT requirements"
  else if pad_size.getD 2 0 ≠ higher_primes (pad_size.getD 2 0) then
    Except.error "ValueError: pad_size does not meet FFT requirements"
  else
    let p0 := pad_size.getD 0 0
    let p1 := pad_size.getD 1 0
    let p2 := pad_size.getD 2 0
    let wz := sym_pad_widths_z p0 iz0 nbz
    let wy := sym_pad_widths_z p1 iy0 nby
    let wx := sym_pad_widths_z p2 ix0 nbx
    let pad_width := [max wz.1 0, max wz.2 0, max wy.1 0, max wy.2 0,
      max wx.1 0, max wx.2 0]
    pad_tail data mask frames q pad_width nbz
      (fun t =>
        match pad_extend_q (pad_width.getD 0 0) p0 t.1,
          pad_extend_q (pad_width.getD 1 0) p1 t.2.1,
          pad_extend_q (pad_width.getD 2 0) p2 t.2.2 with
        | Except.ok qx2, Except.ok qz2, Except.ok qy2 => Except.ok (qx2, qz2, qy2)
        | _, _, _ => Except.error "IndexError: q axis too short")

/-- Branch pad_asym_ZYX (lines 902-938): pad all axes to the next
FFT-compatible sizes without centering.  The pad-width formula for the y head
reads pad_size[1] (an IndexError when pad_size has fewer than two entries),
and the q extension again reuses the source index choices verbatim. -/
def branch_pad_asym_ZYX (data mask : A3) (frames : List ℤ) (q : QV)
    (nbz nby nbx : ℕ) (pad_size : List ℕ) : Except String CenterFFTResult :=
  let nz1 := higher_primes nbz
  let ny1 := higher_primes nby
  let nx1 := higher_primes nbx
  match pad_size.get? 1 with
  | none => Except.error "IndexError: list index out of range"
  | some p1 =>
      let wz := asym_pad_widths nz1 nbz
      let wx := asym_pad_widths nx1 nbx
      let dy : ℤ := (ny1 : ℤ) - (nby : ℤ)
      let w2 : ℤ := (dy + ((p1 : ℤ) - (nby : ℤ)) % 2) / 2
      let w3 : ℤ := (dy + 1) / 2 - dy % 2
      let pad_width := [wz.1, wz.2, w2, w3, wx.1, wx.2]
      pad_tail data mask frames q pad_width nbz
        (fun t =>
          match pad_extend_q (pad_width.getD 0 0) nz1 t.1,
            pad_extend_q (pad_width.getD 1 0) ny1 t.2.1,
            pad_extend_q (pad_width.getD 2 0) nx1 t.2.2 with
          | Except.ok qx2, Except.ok qz2, Except.ok qy2 => Except.ok (qx2, qz2, qy2)
          | _, _, _ => Except.error "IndexError: q axis too short")

/-- center_fft (bcdi_utils.py lines 411-951): resolve the center, compute the
maximal symmetric box, force fft_option to "skip" when any box size is zero,
and dispatch on the twelve policies; an unknown policy raises ValueError. -/
def center_fft (data mask : A3) (detector : Detector) (frames_logical : List ℤ)
    (centering : String) (fft_option : String) (fix_bragg : Option (List ℚ))
    (pad_size : List ℕ) (q_values : QV) : Except String CenterFFTResult :=
  match resolveCenterFull data detector centering fix_bragg q_values with
  | Except.error e => Except.error e
  | Except.ok (iz0, iy0, ix0) =>
    let s := shape3 data
    let nbz := s.1
    let nby := s.2.1
    let nbx := s.2.2
    let max_nz : ℤ := |2 * min iz0 ((nbz : ℤ) - iz0)|
    let max_ny : ℤ := 2 * min iy0 ((nby : ℤ) - iy0)
    let max_nx : ℤ := |2 * min ix0 ((nbx : ℤ) - ix0)|
    let opt := if max_nz = 0 ∨ max_ny = 0 ∨ max_nx = 0 then "skip" else fft_option
    if opt = "crop_sym_ZYX" then
      branch_crop_sym_ZYX data mask frames_logical q_values iz0 iy0 ix0 nbz
        max_nz max_ny max_nx
    else if opt = "crop_asym_ZYX" then
      branch_crop_asym_ZYX data mask frames_logical q_values nbz nby nbx
    else if opt = "pad_sym_Z_crop_sym_YX" then
      branch_pad_sym_Z_crop_sym_YX data mask frames_logical q_values iz0 iy0 ix0
        nbz max_ny max_nx pad_size
    else if opt = "pad_sym_Z_crop_asym_YX" then
      branch_pad_sym_Z_crop_asym_YX data mask frames_logical q_values iz0
        nbz nby nbx max_ny max_nx pad_size
    else if opt = "pad_asym_Z_crop_sym_YX" then
      branch_pad_asym_Z_crop_sym_YX data mask frames_logical q_values iy0 ix0
        nbz max_ny max_nx
    else if opt = "pad_asym_Z_crop_asym_YX" then
      branch_pad_asym_Z_crop_asym_YX data mask frames_logical q_values nbz nby nbx
    else if opt = "pad_sym_Z" then
      branch_pad_sym_Z data mask frames_logical q_values iz0 nbz pad_size
    else if opt = "pad_asym_Z" then
      branch_pad_asym_Z data mask frames_logical q_values nbz
    else if opt = "pad_sym_ZYX" then
      branch_pad_sym_ZYX data mask frames_logical q_values iz0 iy0 ix0
        nbz nby nbx pad_size
    else if opt = "pad_asym_ZYX" then
      branch_pad_asym_ZYX data mask frames_logical q_values nbz nby nbx pad_size
    else if opt = "skip" then
      Except.ok ⟨data, mask, [0, 0, 0, 0, 0, 0], q_values, frames_logical⟩
    else Except.error "ValueError: Incorrect value for fft_option"

/-! ## PeakFinder (src/bcdi/preprocessing/bcdi_utils.py, lines 38-408) -/

/-- The peak position converted by PeakFinder._offset: the offset is the ROI
origin, added with sign +1 for the full detector frame and -1 for the
region-of-interest frame; the rocking-axis coordinate gets no offset.  Any
other frame name raises ValueError. -/
def peak_offset (roi : List ℤ) (peak : List ℤ) (frame : String) :
    Except String (ℤ × ℤ × ℤ) :=
  if frame ≠ "full_detector" ∧ frame ≠ "region_of_interest" then
    Except.error "ValueError: allowed values full_detector and region_of_interest"
  else
    let sign : ℤ := if frame = "full_detector" then 1 else -1
    Except.ok (peak.getD 0 0, peak.getD 1 0 + sign * roi.getD 0 0,
      peak.getD 2 0 + sign * roi.getD 2 0)

/-- PeakFinder._bin: floor-divide each coordinate by its binning factor. -/
def peak_bin (binning : List ℤ) (peak : List ℤ) : List ℤ :=
  (peak.zip binning).map (fun p => Int.fdiv p.1 p.2)

/-- PeakFinder._unbin: multiply each coordinate by its binning factor. -/
def peak_unbin (binning : List ℤ) (peak : List ℤ) : List ℤ :=
  (peak.zip binning).map (fun p => p.1 * p.2)

/-- PeakFinder.find_peak (lines 163-199): locate the peak with the three
computable estimators and report each in the full unbinned detector frame.
The errors model the exceptions of the corresponding source lines: argmax on
an empty array, int(np.rint(nan)) when a center of mass is undefined, and the
logging reads of the array at the com / max_com positions. -/
def find_peak (array : A3) (roi binning : List ℤ) :
    Except String (List (String × (ℤ × ℤ × ℤ))) :=
  let s := shape3 array
  match argmax3 array with
  | none => Except.error "ValueError: attempt to get argmax of an empty sequence"
  | some (iz, iy, ix) =>
    let position_max : List ℤ := [(iz : ℤ), (iy : ℤ), (ix : ℤ)]
    match center_of_mass3 array with
    | none => Except.error "ValueError: cannot convert float NaN to integer"
    | some (cz, cy, cx) =>
      let position_com : List ℤ := [roundHalfEven cz, roundHalfEven cy, roundHalfEven cx]
      match pyIndex s.1 (position_com.getD 0 0), pyIndex s.2.1 (position_com.getD 1 0),
        pyIndex s.2.2 (position_com.getD 2 0) with
      | some _, some _, some _ =>
        match center_of_mass2 (array.getD iz []) with
        | none => Except.error "ValueError: cannot convert float NaN to integer"
        | some (my, mx) =>
          let position_max_com : List ℤ := [(iz : ℤ), roundHalfEven my, roundHalfEven mx]
          match pyIndex s.2.1 (position_max_com.getD 1 0),
            pyIndex s.2.2 (position_max_com.getD 2 0) with
          | some _, some _ =>
            match peak_offset roi (peak_unbin binning position_max) "full_detector",
              peak_offset roi (peak_unbin binning position_com) "full_detector",
              peak_offset roi (peak_unbin binning position_max_com) "full_detector" with
            | Except.ok pmax, Except.ok pcom, Except.ok pmaxcom =>
                Except.ok [("max", pmax), ("com", pcom), ("max_com", pmaxcom)]
            | _, _, _ => Except.error "ValueError: unreachable frame error"
          | _, _ => Except.error "IndexError: index out of bounds for axis"
      | _, _, _ => Except.error "IndexError: index out of bounds for axis"

/-- The state of a constructed PeakFinder instance. -/
structure PeakFinder where
  array : A3
  region_of_interest : List ℤ
  binning : List ℤ
  peak_method : String
  peaks : List (String × (ℤ × ℤ × ℤ))
  detector_data_at_peak : List (List ℚ)

/-- The allowed peak methods (class attribute PEAK_METHODS). -/
def PeakFinder.PEAK_METHODS : List String := ["max", "com", "max_com", "user", "skip"]

/-- PeakFinder.__init__ (lines 59-88): resolve and validate the region of
interest (default [0, ny, 0, nx]) and the binning (default [1, 1, 1]), reject
an unsupported peak_method (the peak_method setter), run find_peak, then
eagerly evaluate self.array[self._roi_center[0]] for detector_data_at_peak.
The _roi_center property reads self.peaks[self.peak_method], so a method
without a computed entry ("user", "skip") raises KeyError here, during
construction. -/
def PeakFinder.mk? (array : A3) (region_of_interest : Option (List ℤ))
    (binning : Option (List ℤ)) (peak_method : String) :
    Except String PeakFinder :=
  let s := shape3 array
  let roi := match region_of_interest with
    | none => [0, (s.2.1 : ℤ), 0, (s.2.2 : ℤ)]
    | some r => r
  if roi.length ≠ 4 then
    Except.error "ValueError: region_of_interest should be of length 4"
  else
    let binn := match binning with | none => [1, 1, 1] | some b => b
    if binn.length ≠ 3 then Except.error "ValueError: binning should be of length 3"
    else if ¬ peak_method ∈ PeakFinder.PEAK_METHODS then
      Except.error "ValueError: allowed peak methods are max com max_com user skip"
    else
      match find_peak array roi binn with
      | Except.error e => Except.error e
      | Except.ok pks =>
        match pks.lookup peak_method with
        | none => Except.error ("KeyError: " ++ peak_method)
        | some bragg =>
          if binn.getD 1 0 = 0 ∨ binn.getD 2 0 = 0 then
            Except.error "ZeroDivisionError: integer division by zero"
          else
            match pyIndex s.1 bragg.1 with
            | none => Except.error "IndexError: index out of bounds for axis 0"
            | some idx =>
                Except.ok ⟨array, roi, binn, peak_method, pks, array.getD idx []⟩

/-- PeakFinder.bragg_peak: the position for the active method, a KeyError
when that method computed none. -/
def PeakFinder.bragg_peak (pf : PeakFinder) : Except String (ℤ × ℤ × ℤ) :=
  match pf.peaks.lookup pf.peak_method with
  | none => Except.error ("KeyError: " ++ pf.peak_method)
  | some b => Except.ok b

/-- PeakFinder.get_indices_full_detector (lines 206-209): unbin, then offset
with sign +1. -/
def PeakFinder.get_indices_full_detector (pf : PeakFinder) (position : List ℤ) :
    Except String (ℤ × ℤ × ℤ) :=
  peak_offset pf.region_of_interest (peak_unbin pf.binning position) "full_detector"

/-- PeakFinder.get_indices_cropped_binned_detector (lines 201-204): offset
with sign -1, then bin. -/
def PeakFinder.get_indices_cropped_binned_detector (pf : PeakFinder)
    (position : List ℤ) : Except String (List ℤ) :=
  match peak_offset pf.region_of_interest position "region_of_interest" with
  | Except.error e => Except.error e
  | Except.ok t => Except.ok (peak_bin pf.binning [t.1, t.2.1, t.2.2])

/-! ## Regridder post-pass (grid_bcdi_labframe lines 1101-1110 and
grid_bcdi_xrayutil lines 1282-1289)

The interpolators themselves (Setup.ortho_reciprocal and the xrayutilities
FuzzyGridder3D) are outside src/; the post-pass below is embedded from the
source lines.  Arrays are modelled as functions from voxel positions to
float values, where none models NaN. -/

/-- Voxel positions of an output grid. -/
abbrev Pos := ℕ × ℕ × ℕ

/-- A float-valued array: none at a voxel models NaN. -/
abbrev VArr := Pos → Option ℚ

/-- np.isnan on one value. -/
def vIsNan (v : Option ℚ) : Bool := v.isNone

/-- Membership in np.nonzero: NaN is nonzero, a number is nonzero when it
differs from 0. -/
def vNonzero (v : Option ℚ) : Bool :=
  match v with
  | none => true
  | some q => q ≠ 0

/-- astype(int) on one value: truncation toward zero.  The none (NaN) case
never survives the preceding NaN folding; its value here is irrelevant. -/
def vTruncInt : Option ℚ → ℤ
  | none => 0
  | some q => q.num.tdiv (q.den : ℤ)

/-- grid_bcdi_labframe, lines 1101-1110: fold NaN of the interpolated data
into the mask and zero it in the data, fold NaN of the mask, collapse every
nonzero mask value to 1, cast the mask to int, and finally zero the data at
every nonzero mask voxel.  Returns (data, mask). -/
def grid_bcdi_labframe_nan_fold (interp_data interp_mask : VArr) :
    VArr × (Pos → ℤ) :=
  let mask1 : VArr := fun p => if vIsNan (interp_data p) then some 1 else interp_mask p
  let data1 : VArr := fun p => if vIsNan (interp_data p) then some 0 else interp_data p
  let mask2 : VArr := fun p => if vIsNan (mask1 p) then some 1 else mask1 p
  let mask3 : VArr := fun p => if vNonzero (mask2 p) then some 1 else mask2 p
  let mask_int : Pos → ℤ := fun p => vTruncInt (mask3 p)
  let data2 : VArr := fun p => if mask_int p ≠ 0 then some 0 else data1 p
  (data2, mask_int)

/-- grid_bcdi_xrayutil, lines 1282-1289: the same folding but without the
collapse of nonzero mask values to 1 (the fuzzy mask is cast to int
directly). -/
def grid_bcdi_xrayutil_nan_fold (interp_data interp_mask : VArr) :
    VArr × (Pos → ℤ) :=
  let mask1 : VArr := fun p => if vIsNan (interp_data p) then some 1 else interp_mask p
  let data1 : VArr := fun p => if vIsNan (interp_data p) then some 0 else interp_data p
  let mask2 : VArr := fun p => if vIsNan (mask1 p) then some 1 else mask1 p
  let mask_int : Pos → ℤ := fun p => vTruncInt (mask2 p)
  let data2 : VArr := fun p => if mask_int p ≠ 0 then some 0 else data1 p
  (data2, mask_int)

/-- Modelled from the spec: the two interpolators (Setup.ortho_reciprocal
with NaN fill value and the FuzzyGridder3D resampling, both outside src/)
leave NaN in the interpolated data exactly at output voxels with zero
contributing input samples or outside the interpolation range. -/
def gridderZeroContribIsNan (interp_data : VArr) (contrib : Pos → ℕ) : Prop :=
  ∀ p, contrib p = 0 → interp_data p = none

/-! ## Postprocessing (src/bcdi/postprocessing/process_scan.py) -/

/-- Modelled from the spec: the phase array of the averaged object together
with the fitted linear ramp coefficients (PhaseManipulator lives in
bcdi/postprocessing/analysis.py, outside src/). -/
structure PhaseManipulator where
  phase : Pos → ℚ
  ramp : ℚ × ℚ × ℚ

/-- Modelled from the spec: PhaseManipulator.add_ramp adds sign times the
fitted linear ramp, voxelwise; process_scan.py calls add_ramp() at line 183
and add_ramp(sign=-1) at line 197 with the same fitted coefficients. -/
def PhaseManipulator.add_ramp (pm : PhaseManipulator) (sign : ℚ) :
    PhaseManipulator :=
  ⟨fun p => pm.phase p +
      sign * (pm.ramp.1 * (p.1 : ℚ) + pm.ramp.2.1 * (p.2.1 : ℚ) + pm.ramp.2.2 * (p.2.2 : ℚ)),
    pm.ramp⟩

/-- The float value of np.pi. -/
def np_pi : ℚ := 3.141592653589793

/-- process_scan.py lines 488-498: when the refraction correction is
requested, an undefined wavelength raises ValueError (aborting the scan);
otherwise the phase correction 2 pi / (1e9 wavelength) * dispersion *
optical_path is added to the phase. -/
def refraction_correction (correct_refraction : Bool) (wavelength : Option ℚ)
    (dispersion : ℚ) (optical_path phase : Pos → ℚ) :
    Except String (Pos → ℚ) :=
  if correct_refraction then
    match wavelength with
    | none => Except.error "ValueError: X-ray energy undefined"
    | some wl =>
        Except.ok (fun p =>
          phase p + 2 * np_pi / (1000000000 * wl) * dispersion * optical_path p)
  else Except.ok phase

/-! ## Helper lemmas -/

/-- A size that fails the FFT constraint is changed by higher_primes, so the
source check pad_size[i] != higher_primes(pad_size[i]) fires. -/
theorem higher_primes_ne_of_not_compat (p : ℕ) (h : fft_compatible p = false) :
    higher_primes p ≠ p := by
  intro hcontra
  unfold higher_primes at hcontra
  cases hh : ((List.range (2 * p + 4)).filter
      (fun m => decide (p ≤ m) && fft_compatible m)).head? with
  | none => rw [hh] at hcontra; simp at hcontra; omega
  | some m =>
      rw [hh] at hcontra
      simp only [Option.getD_some] at hcontra
      have hmem := List.mem_of_mem_head? hh
      have h2 := List.of_mem_filter hmem
      rw [hcontra] at h2
      simp [h] at h2

/-- The condition that forces fft_option to "skip" holds exactly when one of
the symmetric half-boxes is empty. -/
theorem skip_cond_iff (iz0 iy0 ix0 : ℤ) (nbz nby nbx : ℕ) :
    (|2 * min iz0 ((nbz : ℤ) - iz0)| = 0 ∨ 2 * min iy0 ((nby : ℤ) - iy0) = 0 ∨
      |2 * min ix0 ((nbx : ℤ) - ix0)| = 0) ↔
    (min iz0 ((nbz : ℤ) - iz0) = 0 ∨ min iy0 ((nby : ℤ) - iy0) = 0 ∨
      min ix0 ((nbx : ℤ) - ix0) = 0) := by
  simp only [abs_eq_zero, mul_eq_zero]
  omega

/-! ## Claim C3 -/

/-- Claim C3: PeakFinder converts between frames by multiplying by the
per-axis binning factors and adding the ROI origin with sign +1 on the two
detector-plane axes when going to the full unbinned detector frame, and by
applying the ROI origin with sign -1 and floor-dividing by the binning
factors when going back to the ROI frame; the rocking-axis coordinate never
receives a ROI offset. -/
theorem claim_C3 (arr : A3) (pm : String) (pks : List (String × (ℤ × ℤ × ℤ)))
    (ddp : List (List ℚ)) (r0 r1 r2 r3 b0 b1 b2 p0 p1 p2 : ℤ) :
    (PeakFinder.get_indices_full_detector
        ⟨arr, [r0, r1, r2, r3], [b0, b1, b2], pm, pks, ddp⟩ [p0, p1, p2] =
      Except.ok (p0 * b0, p1 * b1 + r0, p2 * b2 + r2)) ∧
    (PeakFinder.get_indices_cropped_binned_detector
        ⟨arr, [r0, r1, r2, r3], [b0, b1, b2], pm, pks, ddp⟩ [p0, p1, p2] =
      Except.ok [Int.fdiv p0 b0, Int.fdiv (p1 - r0) b1, Int.fdiv (p2 - r2) b2]) := by
  constructor
  · simp [PeakFinder.get_indices_full_detector, peak_offset, peak_unbin]
  · have hfd : ("region_of_interest" = "full_detector") = False := by decide
    simp only [PeakFinder.get_indices_cropped_binned_detector, peak_offset, peak_bin,
      sub_eq_add_neg, neg_mul, one_mul, neg_one_mul, hfd]
    norm_num

/-! ## Claim C7 -/

/-- Claim C7: the ramp add/remove pair of process_scan (add_ramp with sign +1
followed by add_ramp with sign -1, both with the same fitted coefficients) is
algebraically inverse - the phase array is reproduced exactly (exact rational
arithmetic models the within-floating-point-tolerance round trip). -/
theorem claim_C7 (pm : PhaseManipulator) :
    ((pm.add_ramp 1).add_ramp (-1)).phase = pm.phase := by
  funext p
  simp only [PhaseManipulator.add_ramp]
  ring

/-! ## Claim C8 (corrected) -/

/-- Claim C8 counterexample: with the optical-path correction requested and
the wavelength undefined, the code raises ValueError ("X-ray energy
undefined"), aborting the current scan, instead of logging a non-fatal
warning and merely skipping the correction as the claim states. -/
theorem claim_C8_counterexample :
    refraction_correction true none 1 (fun _ => 1) (fun _ => 0) =
      Except.error "ValueError: X-ray energy undefined" := rfl

/-- Claim C8 amended: when the optical-path correction is requested but the
wavelength is undefined, process_scan raises ValueError ("X-ray energy
undefined") and the current scan is aborted; the condition is not a logged
warning and the rest of the pipeline does not proceed for that scan. -/
theorem claim_C8_amended (dispersion : ℚ) (optical_path phase : Pos → ℚ) :
    refraction_correction true none dispersion optical_path phase =
      Except.error "ValueError: X-ray energy undefined" := rfl

/-- An if-then-else between two present option values is never none. -/
theorem ite_some_ne_none (c : Prop) [Decidable c] (a b : ℚ) :
    (if c then some a else some b) ≠ none := by
  split <;> simp

/-! ## Claim C1 -/

/-- Claim C1: for both Regridder variants, under the spec-modelled gridder
behaviour (zero-contribution voxels carry NaN in the interpolated data),
every output voxel with zero contributing samples or with a NaN
interpolation result ends flagged 1 in the mask and 0 in the data, no NaN
remains in the returned data, and the data is zero wherever the final mask
is nonzero - the observable consequence of folding NaN into the mask before
the final data-zeroing pass (with the reversed order the NaN voxels would
survive unmasked). -/
theorem claim_C1 (d m : VArr) (contrib : Pos → ℕ)
    (hc : gridderZeroContribIsNan d contrib) :
    (∀ p, contrib p = 0 ∨ d p = none →
      (grid_bcdi_labframe_nan_fold d m).2 p = 1 ∧
      (grid_bcdi_labframe_nan_fold d m).1 p = some 0 ∧
      (grid_bcdi_xrayutil_nan_fold d m).2 p = 1 ∧
      (grid_bcdi_xrayutil_nan_fold d m).1 p = some 0) ∧
    (∀ p, (grid_bcdi_labframe_nan_fold d m).1 p ≠ none ∧
      (grid_bcdi_xrayutil_nan_fold d m).1 p ≠ none) ∧
    (∀ p, ((grid_bcdi_labframe_nan_fold d m).2 p ≠ 0 →
        (grid_bcdi_labframe_nan_fold d m).1 p = some 0) ∧
      ((grid_bcdi_xrayutil_nan_fold d m).2 p ≠ 0 →
        (grid_bcdi_xrayutil_nan_fold d m).1 p = some 0)) := by
  refine ⟨?_, ?_, ?_⟩
  · intro p hp
    have hdp : d p = none := by
      rcases hp with hp | hp
      · exact hc p hp
      · exact hp
    simp [grid_bcdi_labframe_nan_fold, grid_bcdi_xrayutil_nan_fold, hdp,
      vIsNan, vNonzero, vTruncInt]
  · intro p
    constructor <;>
    · simp only [grid_bcdi_labframe_nan_fold, grid_bcdi_xrayutil_nan_fold]
      cases hdp : d p with
      | none =>
          simp only [hdp, vIsNan, Option.isNone_none, if_true, reduceIte]
          exact ite_some_ne_none _ _ _
      | some v =>
          simp only [hdp, vIsNan, Option.isNone_some, Bool.false_eq_true, if_false, reduceIte]
          exact ite_some_ne_none _ _ _
  · intro p
    constructor
    · simp only [grid_bcdi_labframe_nan_fold]
      intro h
      simp [h]
    · simp only [grid_bcdi_xrayutil_nan_fold]
      intro h
      simp [h]

/-- Claim C1 witness: the theorem applied to the one-voxel-style concrete
input with no contributing samples everywhere. -/
theorem claim_C1_witness :
    (grid_bcdi_labframe_nan_fold (fun _ => none) (fun _ => some 0)).2 (0, 0, 0) = 1 ∧
    (grid_bcdi_labframe_nan_fold (fun _ => none) (fun _ => some 0)).1 (0, 0, 0) = some 0 ∧
    (grid_bcdi_xrayutil_nan_fold (fun _ => none) (fun _ => some 0)).2 (0, 0, 0) = 1 ∧
    (grid_bcdi_xrayutil_nan_fold (fun _ => none) (fun _ => some 0)).1 (0, 0, 0) = some 0 :=
  (claim_C1 (fun _ => none) (fun _ => some 0) (fun _ => 0) (fun _ _ => rfl)).1
    (0, 0, 0) (Or.inl rfl)

/-! ## Claim C2 -/

/-- Claim C2: center_fft with fft_option = "skip" is the identity transform;
the returned data, mask, q_values and frames_logical equal the inputs and the
returned pad_width is [0, 0, 0, 0, 0, 0].  The hypothesis states that the
center-resolution prologue of the source (shared by every policy, including
its logging reads) does not raise. -/
theorem claim_C2 (data mask : A3) (det : Detector) (frames : List ℤ)
    (centering : String) (fb : Option (List ℚ)) (ps : List ℕ) (q : QV)
    (c : ℤ × ℤ × ℤ)
    (hres : resolveCenterFull data det centering fb q = Except.ok c) :
    center_fft data mask det frames centering "skip" fb ps q =
      Except.ok ⟨data, mask, [0, 0, 0, 0, 0, 0], q, frames⟩ := by
  obtain ⟨iz0, iy0, ix0⟩ := c
  unfold center_fft
  rw [hres]
  by_cases hcond : (|2 * min iz0 (((shape3 data).1 : ℤ) - iz0)| = 0 ∨
      2 * min iy0 (((shape3 data).2.1 : ℤ) - iy0) = 0 ∨
      |2 * min ix0 (((shape3 data).2.2 : ℤ) - ix0)| = 0)
  · simp [hcond]
  · simp [hcond]

/-- Claim C2 witness: a concrete skip run with supplied q axes. -/
theorem claim_C2_witness :
    center_fft [[[1]]] [[[0]]] ⟨[0, 1, 0, 1], [1, 1, 1], [1, 1, 1]⟩ [1] "max" "skip"
      none [] (some ([1], [2], [3])) =
    Except.ok ⟨[[[1]]], [[[0]]], [0, 0, 0, 0, 0, 0], some ([1], [2], [3]), [1]⟩ :=
  claim_C2 [[[1]]] [[[0]]] ⟨[0, 1, 0, 1], [1, 1, 1], [1, 1, 1]⟩ [1] "max" none []
    (some ([1], [2], [3])) (0, 0, 0) (by decide)

/-! ## Claim C6 -/

/-- Claim C6: when any axis of the maximal symmetric box around the resolved
center has zero half-width (min(center, extent - center) = 0), center_fft
forces the policy to the no-op "skip" fallback for every fft_option value and
returns the input unchanged (pad_width zero), never cropping to an empty
array. -/
theorem claim_C6 (data mask : A3) (det : Detector) (frames : List ℤ)
    (centering fft_option : String) (fb : Option (List ℚ)) (ps : List ℕ) (q : QV)
    (iz0 iy0 ix0 : ℤ)
    (hres : resolveCenterFull data det centering fb q = Except.ok (iz0, iy0, ix0))
    (hzero : min iz0 (((shape3 data).1 : ℤ) - iz0) = 0 ∨
      min iy0 (((shape3 data).2.1 : ℤ) - iy0) = 0 ∨
      min ix0 (((shape3 data).2.2 : ℤ) - ix0) = 0) :
    center_fft data mask det frames centering fft_option fb ps q =
      Except.ok ⟨data, mask, [0, 0, 0, 0, 0, 0], q, frames⟩ := by
  unfold center_fft
  rw [hres]
  simp [hzero]

/-- Claim C6 witness: a maximal voxel on the first frame gives a zero
half-width along z; a cropping policy is forced to skip. -/
theorem claim_C6_witness :
    center_fft [[[5, 1], [1, 1]], [[1, 1], [1, 1]]] [[[0, 0], [0, 0]], [[0, 0], [0, 0]]]
      ⟨[0, 2, 0, 2], [1, 1, 1], [1, 1, 1]⟩ [1, 1] "max" "crop_sym_ZYX" none [] none =
    Except.ok ⟨[[[5, 1], [1, 1]], [[1, 1], [1, 1]]], [[[0, 0], [0, 0]], [[0, 0], [0, 0]]],
      [0, 0, 0, 0, 0, 0], none, [1, 1]⟩ :=
  claim_C6 [[[5, 1], [1, 1]], [[1, 1], [1, 1]]] [[[0, 0], [0, 0]], [[0, 0], [0, 0]]]
    ⟨[0, 2, 0, 2], [1, 1, 1], [1, 1, 1]⟩ [1, 1] "max" "crop_sym_ZYX" none [] none
    0 0 0 (by decide) (by decide)

/-! ## Claim C10 -/

/-- Claim C10: center_fft with fft_option = "pad_asym_ZYX" and the default
(absent, empty) pad_size raises an IndexError while computing the pad widths,
because the y-head pad-width formula evaluates pad_size[1]; a 3-element
pad_size is a de-facto precondition of this policy even though its target
sizes derive from the current extents.  The box hypothesis excludes the
degenerate inputs that are independently diverted to "skip". -/
theorem claim_C10 (data mask : A3) (det : Detector) (frames : List ℤ)
    (centering : String) (fb : Option (List ℚ)) (q : QV) (iz0 iy0 ix0 : ℤ)
    (hres : resolveCenterFull data det centering fb q = Except.ok (iz0, iy0, ix0))
    (hbox : ¬ (min iz0 (((shape3 data).1 : ℤ) - iz0) = 0 ∨
      min iy0 (((shape3 data).2.1 : ℤ) - iy0) = 0 ∨
      min ix0 (((shape3 data).2.2 : ℤ) - ix0) = 0)) :
    center_fft data mask det frames centering "pad_asym_ZYX" fb [] q =
      Except.error "IndexError: list index out of range" := by
  unfold center_fft
  rw [hres]
  push_neg at hbox
  obtain ⟨h1, h2, h3⟩ := hbox
  simp [h1, h2, h3, branch_pad_asym_ZYX]

/-- Claim C10 witness: a 2x2x2 array with the peak at (1,1,1) runs the
pad_asym_ZYX branch and hits the IndexError. -/
theorem claim_C10_witness :
    center_fft [[[1, 1], [1, 1]], [[1, 1], [1, 5]]] [[[0, 0], [0, 0]], [[0, 0], [0, 0]]]
      ⟨[0, 2, 0, 2], [1, 1, 1], [1, 1, 1]⟩ [1, 1] "max" "pad_asym_ZYX" none [] none =
    Except.error "IndexError: list index out of range" :=
  claim_C10 [[[1, 1], [1, 1]], [[1, 1], [1, 5]]] [[[0, 0], [0, 0]], [[0, 0], [0, 0]]]
    ⟨[0, 2, 0, 2], [1, 1, 1], [1, 1, 1]⟩ [1, 1] "max" none none 1 1 1
    (by decide) (by decide)

/-! ## Claim C4 (corrected) -/

/-- Claim C4 counterexample: the size 70 used as the example in the claim is
in fact FFT-compatible under the constraint of the spec (70 = 2 * 5 * 7 has
largest prime factor 7 and is divisible by 2), and center_fft under the
pad_sym_Z policy with pad_size = [70, 8, 8] is NOT rejected - it returns
successfully, contradicting the claim that a target of 70 raises
ConfigurationError before any array is touched. -/
theorem claim_C4_counterexample :
    fft_compatible 70 = true ∧
    (center_fft [[[1, 1], [1, 1]], [[1, 1], [1, 5]]] [[[0, 0], [0, 0]], [[0, 0], [0, 0]]]
      ⟨[0, 2, 0, 2], [1, 1, 1], [1, 1, 1]⟩ [1, 1] "max" "pad_sym_Z" none [70, 8, 8]
      none).isOk = true := by
  constructor
  · decide
  · decide

/-- Claim C4 amended: for every center_fft padding policy that takes a
caller-specified pad_size, supplying a target size that genuinely violates
the FFT constraint (largest prime factor at most 7 and divisible by 2), for
example 22 - but not 70, which satisfies the constraint - is rejected with
ValueError before any array is produced; for the three pad_sym_Z policies the
checked entry is pad_size[0], for pad_sym_ZYX all three entries are checked.
The box hypothesis excludes the degenerate inputs independently diverted to
"skip". -/
theorem claim_C4 (data mask : A3) (det : Detector) (frames : List ℤ)
    (centering : String) (fb : Option (List ℚ)) (q : QV) (ps : List ℕ)
    (iz0 iy0 ix0 : ℤ)
    (hres : resolveCenterFull data det centering fb q = Except.ok (iz0, iy0, ix0))
    (hbox : ¬ (min iz0 (((shape3 data).1 : ℤ) - iz0) = 0 ∨
      min iy0 (((shape3 data).2.1 : ℤ) - iy0) = 0 ∨
      min ix0 (((shape3 data).2.2 : ℤ) - ix0) = 0))
    (hlen : ps.length = 3) :
    (fft_compatible (ps.getD 0 0) = false →
      (center_fft data mask det frames centering "pad_sym_Z_crop_sym_YX" fb ps q =
        Except.error "ValueError: pad_size does not meet FFT requirements") ∧
      (center_fft data mask det frames centering "pad_sym_Z_crop_asym_YX" fb ps q =
        Except.error "ValueError: pad_size does not meet FFT requirements") ∧
      (center_fft data mask det frames centering "pad_sym_Z" fb ps q =
        Except.error "ValueError: pad_size does not meet FFT requirements") ∧
      (center_fft data mask det frames centering "pad_sym_ZYX" fb ps q =
        Except.error "ValueError: pad_size does not meet FFT requirements")) ∧
    ((fft_compatible (ps.getD 1 0) = false ∨ fft_compatible (ps.getD 2 0) = false) →
      center_fft data mask det frames centering "pad_sym_ZYX" fb ps q =
        Except.error "ValueError: pad_size does not meet FFT requirements") := by
  push_neg at hbox
  obtain ⟨h1, h2, h3⟩ := hbox
  have hlen3 : (ps.length ≠ 3) = False := by simp [hlen]
  constructor
  · intro h0
    have hne0 : ps.getD 0 0 ≠ higher_primes (ps.getD 0 0) := fun hc =>
      higher_primes_ne_of_not_compat _ h0 hc.symm
    simp only [List.getD, List.get?_eq_getElem?] at hne0
    refine ⟨?_, ?_, ?_, ?_⟩ <;>
    · unfold center_fft
      rw [hres]
      simp [h1, h2, h3, hlen3, hne0, branch_pad_sym_Z_crop_sym_YX,
        branch_pad_sym_Z_crop_asym_YX, branch_pad_sym_Z, branch_pad_sym_ZYX]
  · intro h12
    unfold center_fft
    rw [hres]
    simp only [List.getD, List.get?_eq_getElem?] at h12
    simp [h1, h2, h3, hlen3, branch_pad_sym_ZYX]
    rcases h12 with hb | hb
    · intro _ e1
      exact absurd e1 (fun hc => higher_primes_ne_of_not_compat _ hb hc.symm)
    · intro _ _ e2
      exact absurd e2 (fun hc => higher_primes_ne_of_not_compat _ hb hc.symm)

/-- Claim C4 witness: the amended theorem applied to a concrete 2x2x2 input
with the non-compatible target 22 (largest prime factor 11). -/
theorem claim_C4_witness :
    center_fft [[[1, 1], [1, 1]], [[1, 1], [1, 5]]] [[[0, 0], [0, 0]], [[0, 0], [0, 0]]]
      ⟨[0, 2, 0, 2], [1, 1, 1], [1, 1, 1]⟩ [1, 1] "max" "pad_sym_Z_crop_sym_YX" none
      [22, 24, 24] none =
    Except.error "ValueError: pad_size does not meet FFT requirements" :=
  ((claim_C4 [[[1, 1], [1, 1]], [[1, 1], [1, 5]]] [[[0, 0], [0, 0]], [[0, 0], [0, 0]]]
    ⟨[0, 2, 0, 2], [1, 1, 1], [1, 1, 1]⟩ [1, 1] "max" none none [22, 24, 24] 1 1 1
    (by decide) (by decide) (by decide)).1 (by decide)).1

/-! ## Claim C9 (corrected) -/

/-- Any successful find_peak result carries exactly the three computable
methods as keys. -/
theorem find_peak_shape {arr : A3} {roi binn : List ℤ}
    {pks : List (String × (ℤ × ℤ × ℤ))}
    (h : find_peak arr roi binn = Except.ok pks) :
    ∃ a b c, pks = [("max", a), ("com", b), ("max_com", c)] := by
  simp only [find_peak] at h
  repeat' split at h
  all_goals first
    | exact (Except.noConfusion h)
    | (injection h with h2; exact ⟨_, _, _, h2.symm⟩)

/-- Claim C9 counterexample: constructing PeakFinder with the "skip" policy
on a 1x1x1 array does not succeed - __init__ raises KeyError("skip") because
it eagerly evaluates the detector data at the peak of the active method; the
claim asserts that construction succeeds and the raise is deferred until the
position is requested downstream. -/
theorem claim_C9_counterexample :
    PeakFinder.mk? [[[1]]] none none "skip" = Except.error "KeyError: skip" := by
  rfl

/-- Claim C9 amended: only an unsupported policy name is rejected with
ValueError by the peak_method setter, but under "skip" or "user" (policies
with no computed peak entry) the construction itself raises KeyError, because
__init__ eagerly reads peaks[peak_method] through
_roi_center/detector_data_at_peak; the raise is not deferred to a downstream
request. -/
theorem claim_C9 (arr : A3) (pm : String) (pks : List (String × (ℤ × ℤ × ℤ)))
    (h2 : find_peak arr [0, ((shape3 arr).2.1 : ℤ), 0, ((shape3 arr).2.2 : ℤ)]
      [1, 1, 1] = Except.ok pks) :
    ((¬ pm ∈ PeakFinder.PEAK_METHODS) → PeakFinder.mk? arr none none pm =
      Except.error "ValueError: allowed peak methods are max com max_com user skip") ∧
    ((pm = "skip" ∨ pm = "user") → PeakFinder.mk? arr none none pm =
      Except.error ("KeyError: " ++ pm)) := by
  constructor
  · intro hpm
    unfold PeakFinder.mk?
    simp [hpm]
  · intro hpm
    obtain ⟨a, b, c, rfl⟩ := find_peak_shape h2
    unfold PeakFinder.mk?
    rcases hpm with rfl | rfl <;>
      simp [h2, PeakFinder.PEAK_METHODS, List.lookup]

/-- Claim C9 witness: the amended theorem applied to the 1x1x1 array under
the "skip" policy. -/
theorem claim_C9_witness :
    PeakFinder.mk? [[[1]]] none none "user" = Except.error ("KeyError: " ++ "user") :=
  (claim_C9 [[[1]]] "user" [("max", (0, 0, 0)), ("com", (0, 0, 0)), ("max_com", (0, 0, 0))]
    (by decide)).2 (Or.inr rfl)

/-! ## Claim C5 (corrected): helper lemmas -/

/-- A normalized slice bound never exceeds the axis length. -/
theorem pySliceBound_le (n : ℕ) (i : ℤ) : pySliceBound n i ≤ n := by
  unfold pySliceBound
  split <;> omega

/-- The lower slice bound 0 normalizes to 0. -/
theorem pySliceBound_zero (n : ℕ) : pySliceBound n 0 = 0 := by
  unfold pySliceBound
  split <;> omega

/-- The upper slice bound n normalizes to n. -/
theorem pySliceBound_self (n : ℕ) : pySliceBound n (n : ℤ) = n := by
  unfold pySliceBound
  split <;> omega

/-- Scalar slice assignment preserves the length. -/
theorem setSliceScalar_length (l r : ℤ) (v : α) (xs : List α) :
    (setSliceScalar l r v xs).length = xs.length := by
  simp [setSliceScalar]

/-- Entrywise description of scalar slice assignment. -/
theorem setSliceScalar_getD (l r : ℤ) (v : ℤ) (xs : List ℤ) (i : ℕ)
    (hi : i < xs.length) :
    (setSliceScalar l r v xs).getD i 0 =
      if pySliceBound xs.length l ≤ i ∧ i < pySliceBound xs.length r then v
      else xs.getD i 0 := by
  have h1 : i < (setSliceScalar l r v xs).length := by
    rw [setSliceScalar_length]
    exact hi
  rw [List.getD_eq_get _ _ h1]
  unfold setSliceScalar at h1 ⊢
  rw [List.get_mapIdx _ _ i hi]
  rw [List.getD_eq_get _ _ hi]

/-- The relation between the input frames_logical and a cropped/marked
frames_logical: same length, and the entries outside a kept window [a, b) are
zeroed while the window keeps the original values. -/
def framesCroppedMark (old new : List ℤ) : Prop :=
  new.length = old.length ∧ ∃ a b : ℕ,
    ∀ i : ℕ, i < old.length →
      new.getD i 0 = if a ≤ i ∧ i < b then old.getD i 0 else 0

/-- The relation between the input frames_logical and a padded
frames_logical: the original entries survive contiguously, surrounded by -1
entries for the synthetic padded frames. -/
def framesPadded (old new : List ℤ) : Prop :=
  ∃ w0 w1 : ℕ, new = List.replicate w0 (-1) ++ old ++ List.replicate w1 (-1)

/-- Unchanged frames are trivially of cropped/marked shape (full window). -/
theorem framesCroppedMark_refl (xs : List ℤ) : framesCroppedMark xs xs := by
  refine ⟨rfl, 0, xs.length, fun i hi => ?_⟩
  rw [if_pos ⟨Nat.zero_le i, hi⟩]

/-- Unchanged frames are trivially of padded shape (no padding). -/
theorem framesPadded_refl (xs : List ℤ) : framesPadded xs xs := by
  exact ⟨0, 0, by simp⟩

/-- The frames update of the cropping branches produces a cropped/marked
frames_logical. -/
theorem crop_update_frames_mark (z1 z2 : ℤ) (nbz : ℕ) (frames : List ℤ) :
    framesCroppedMark frames (crop_update_frames z1 z2 nbz frames) := by
  unfold crop_update_frames
  constructor
  · split <;> split <;> simp [setSliceScalar_length]
  · refine ⟨if 0 < z1 then pySliceBound frames.length z1 else 0,
      if z2 < (nbz : ℤ) then pySliceBound frames.length z2 else frames.length,
      fun i hi => ?_⟩
    by_cases c1 : 0 < z1 <;> by_cases c2 : z2 < (nbz : ℤ) <;>
      simp only [c1, c2, if_true, if_false, reduceIte]
    · rw [setSliceScalar_getD _ _ _ _ i
        (by rw [setSliceScalar_length]; exact hi)]
      rw [setSliceScalar_length, pySliceBound_self]
      rw [setSliceScalar_getD _ _ _ _ i hi, pySliceBound_zero]
      have hb1 := pySliceBound_le frames.length z1
      have hb2 := pySliceBound_le frames.length z2
      split_ifs <;> first | rfl | omega
    · rw [setSliceScalar_getD _ _ _ _ i hi, pySliceBound_zero]
      split_ifs <;> first | rfl | omega
    · rw [setSliceScalar_getD _ _ _ _ i hi, pySliceBound_self]
      split_ifs <;> first | rfl | omega
    · split_ifs <;> first | rfl | omega

/-- A successful frames rebuild in a padding branch yields the padded shape
at exactly the new length. -/
theorem pad_update_frames_ok {newLen : ℕ} {w0 : ℤ} {nbz : ℕ}
    {frames f2 : List ℤ}
    (h : pad_update_frames newLen w0 nbz frames = Except.ok f2) :
    framesPadded frames f2 ∧ f2.length = newLen := by
  simp only [pad_update_frames, setSliceArr, List.length_replicate] at h
  split at h
  · injection h with h2
    subst h2
    rename_i hlen
    have ha : pySliceBound newLen w0 ≤ newLen := by
      have := pySliceBound_le (List.replicate newLen (-1 : ℤ)).length w0
      simpa using this
    have hb : pySliceBound newLen (w0 + (nbz : ℤ)) ≤ newLen := by
      have := pySliceBound_le (List.replicate newLen (-1 : ℤ)).length (w0 + (nbz : ℤ))
      simpa using this
    constructor
    · refine ⟨pySliceBound newLen w0,
        newLen - (pySliceBound newLen w0 +
          (pySliceBound newLen (w0 + (nbz : ℤ)) - pySliceBound newLen w0)), ?_⟩
      rw [List.take_replicate, List.drop_replicate, min_eq_left ha]
    · simp only [List.length_append, List.length_take, List.length_drop,
        List.length_replicate]
      omega
  · exact (Except.noConfusion h)

/-- A successful padding tail gives a padded frames_logical whose length
equals the first-axis extent of the padded data. -/
theorem pad_tail_frames {data1 mask1 : A3} {frames : List ℤ} {q : QV}
    {pad_width : List ℤ} {nbz : ℕ}
    {qSel : List ℚ × List ℚ × List ℚ → Except String (List ℚ × List ℚ × List ℚ)}
    {r : CenterFFTResult}
    (h : pad_tail data1 mask1 frames q pad_width nbz qSel = Except.ok r) :
    framesPadded frames r.frames_logical ∧
      r.frames_logical.length = r.data.length := by
  unfold pad_tail at h
  repeat' split at h
  all_goals try exact (Except.noConfusion h)
  all_goals injection h with h2
  all_goals subst h2
  all_goals exact pad_update_frames_ok (by assumption)

/-- Elimination for the policy dispatch: if the possibly-forced option equals
a policy name other than "skip", the caller-supplied fft_option was that
name. -/
theorem opt_eq_elim {c : Prop} [Decidable c] {s t : String}
    (h : (if c then "skip" else s) = t) (hne : t ≠ "skip") : s = t := by
  split at h
  · exact absurd h.symm hne
  · exact h

/-- Claim C5 counterexample: a concrete crop_sym_ZYX run in which the
returned frames_logical keeps its input length 3 while the returned data has
first-axis extent 2 - the claim demands those two numbers be equal. -/
theorem claim_C5_counterexample :
    ((center_fft [[[1, 1], [1, 1]], [[1, 1], [1, 5]], [[1, 1], [1, 1]]]
        [[[0, 0], [0, 0]], [[0, 0], [0, 0]], [[0, 0], [0, 0]]]
        ⟨[0, 2, 0, 2], [1, 1, 1], [1, 1, 1]⟩ [1, 1, 1] "max" "crop_sym_ZYX" none []
        none).toOption.map
      (fun r => (r.frames_logical, r.frames_logical.length, r.data.length))) =
      some ([1, 1, 0], 3, 2) := by
  decide

set_option maxHeartbeats 3200000 in
/-- Claim C5 amended: after center_fft returns, frames sliced away by
cropping are set to 0 and frames introduced by padding appear as -1 entries
around the original frames_logical; under the padding policies (and "skip")
the returned frames_logical has length equal to the returned data first-axis
extent, but under the two cropping policies frames_logical retains the INPUT
length (the cropped-away entries are zeroed, not removed), which in general
differs from the new data extent. -/
theorem claim_C5 (data mask : A3) (det : Detector) (frames : List ℤ)
    (centering fft_option : String) (fb : Option (List ℚ)) (ps : List ℕ)
    (q : QV) (r : CenterFFTResult)
    (hin : frames.length = data.length)
    (hok : center_fft data mask det frames centering fft_option fb ps q =
      Except.ok r) :
    ((fft_option = "crop_sym_ZYX" ∨ fft_option = "crop_asym_ZYX" ∨
        fft_option = "skip") → framesCroppedMark frames r.frames_logical) ∧
    ((fft_option ≠ "crop_sym_ZYX" ∧ fft_option ≠ "crop_asym_ZYX") →
      framesPadded frames r.frames_logical ∧
        r.frames_logical.length = r.data.length) := by
  simp only [center_fft] at hok
  split at hok
  · exact (Except.noConfusion hok)
  · rename_i iz0 iy0 ix0 heq
    by_cases hcond : (|2 * (iz0 ⊓ (((shape3 data).1 : ℤ) - iz0))| = 0 ∨
        2 * (iy0 ⊓ (((shape3 data).2.1 : ℤ) - iy0)) = 0 ∨
        |2 * (ix0 ⊓ (((shape3 data).2.2 : ℤ) - ix0))| = 0)
    · rw [if_pos hcond] at hok
      simp only [String.reduceEq, reduceIte, Except.ok.injEq] at hok
      subst hok
      exact ⟨fun _ => framesCroppedMark_refl frames,
        fun _ => ⟨framesPadded_refl frames, hin⟩⟩
    · rw [if_neg hcond] at hok
      by_cases hs1 : fft_option = "crop_sym_ZYX"
      · rw [if_pos hs1] at hok
        refine ⟨fun _ => ?_, fun hne => absurd hs1 hne.1⟩
        simp only [branch_crop_sym_ZYX] at hok
        repeat' split at hok
        all_goals try exact (Except.noConfusion hok)
        all_goals injection hok with h2
        all_goals subst h2
        all_goals exact crop_update_frames_mark _ _ _ _
      · rw [if_neg hs1] at hok
        by_cases hs2 : fft_option = "crop_asym_ZYX"
        · rw [if_pos hs2] at hok
          refine ⟨fun _ => ?_, fun hne => absurd hs2 hne.2⟩
          simp only [branch_crop_asym_ZYX] at hok
          repeat' split at hok
          all_goals try exact (Except.noConfusion hok)
          all_goals injection hok with h2
          all_goals subst h2
          all_goals exact crop_update_frames_mark _ _ _ _
        · rw [if_neg hs2] at hok
          by_cases hs3 : fft_option = "pad_sym_Z_crop_sym_YX"
          · rw [if_pos hs3] at hok
            refine ⟨fun hmem => ?_, fun _ => ?_⟩
            · rcases hmem with h1 | h1 | h1 <;> rw [hs3] at h1 <;> exact absurd h1 (by decide)
            · simp only [branch_pad_sym_Z_crop_sym_YX] at hok
              repeat' split at hok
              all_goals try exact (Except.noConfusion hok)
              all_goals exact pad_tail_frames hok
          · rw [if_neg hs3] at hok
            by_cases hs4 : fft_option = "pad_sym_Z_crop_asym_YX"
            · rw [if_pos hs4] at hok
              refine ⟨fun hmem => ?_, fun _ => ?_⟩
              · rcases hmem with h1 | h1 | h1 <;> rw [hs4] at h1 <;> exact absurd h1 (by decide)
              · simp only [branch_pad_sym_Z_crop_asym_YX] at hok
                repeat' split at hok
                all_goals try exact (Except.noConfusion hok)
                all_goals exact pad_tail_frames hok
            · rw [if_neg hs4] at hok
              by_cases hs5 : fft_option = "pad_asym_Z_crop_sym_YX"
              · rw [if_pos hs5] at hok
                refine ⟨fun hmem => ?_, fun _ => ?_⟩
                · rcases hmem with h1 | h1 | h1 <;> rw [hs5] at h1 <;> exact absurd h1 (by decide)
                · simp only [branch_pad_asym_Z_crop_sym_YX] at hok
                  repeat' split at hok
                  all_goals try exact (Except.noConfusion hok)
                  all_goals exact pad_tail_frames hok
              · rw [if_neg hs5] at hok
                by_cases hs6 : fft_option = "pad_asym_Z_crop_asym_YX"
                · rw [if_pos hs6] at hok
                  refine ⟨fun hmem => ?_, fun _ => ?_⟩
                  · rcases hmem with h1 | h1 | h1 <;> rw [hs6] at h1 <;> exact absurd h1 (by decide)
                  · simp only [branch_pad_asym_Z_crop_asym_YX] at hok
                    repeat' split at hok
                    all_goals try exact (Except.noConfusion hok)
                    all_goals exact pad_tail_frames hok
                · rw [if_neg hs6] at hok
                  by_cases hs7 : fft_option = "pad_sym_Z"
                  · rw [if_pos hs7] at hok
                    refine ⟨fun hmem => ?_, fun _ => ?_⟩
                    · rcases hmem with h1 | h1 | h1 <;> rw [hs7] at h1 <;> exact absurd h1 (by decide)
                    · simp only [branch_pad_sym_Z] at hok
                      repeat' split at hok
                      all_goals try exact (Except.noConfusion hok)
                      all_goals exact pad_tail_frames hok
                  · rw [if_neg hs7] at hok
                    by_cases hs8 : fft_option = "pad_asym_Z"
                    · rw [if_pos hs8] at hok
                      refine ⟨fun hmem => ?_, fun _ => ?_⟩
                      · rcases hmem with h1 | h1 | h1 <;> rw [hs8] at h1 <;> exact absurd h1 (by decide)
                      · simp only [branch_pad_asym_Z] at hok
                        repeat' split at hok
                        all_goals try exact (Except.noConfusion hok)
                        all_goals exact pad_tail_frames hok
                    · rw [if_neg hs8] at hok
                      by_cases hs9 : fft_option = "pad_sym_ZYX"
                      · rw [if_pos hs9] at hok
                        refine ⟨fun hmem => ?_, fun _ => ?_⟩
                        · rcases hmem with h1 | h1 | h1 <;> rw [hs9] at h1 <;> exact absurd h1 (by decide)
                        · simp only [branch_pad_sym_ZYX] at hok
                          repeat' split at hok
                          all_goals try exact (Except.noConfusion hok)
                          all_goals exact pad_tail_frames hok
                      · rw [if_neg hs9] at hok
                        by_cases hs10 : fft_option = "pad_asym_ZYX"
                        · rw [if_pos hs10] at hok
                          refine ⟨fun hmem => ?_, fun _ => ?_⟩
                          · rcases hmem with h1 | h1 | h1 <;> rw [hs10] at h1 <;> exact absurd h1 (by decide)
                          · simp only [branch_pad_asym_ZYX] at hok
                            repeat' split at hok
                            all_goals try exact (Except.noConfusion hok)
                            all_goals exact pad_tail_frames hok
                        · rw [if_neg hs10] at hok
                          by_cases hs11 : fft_option = "skip"
                          · rw [if_pos hs11] at hok
                            injection hok with h2
                            subst h2
                            exact ⟨fun _ => framesCroppedMark_refl frames,
                              fun _ => ⟨framesPadded_refl frames, hin⟩⟩
                          · rw [if_neg hs11] at hok
                            exact (Except.noConfusion hok)

/-- The concrete result of a pad_asym_Z run on a 3x2x2 array with the peak at
(1, 1, 1), used by the claim C5 witness. -/
def c5_witness_result : CenterFFTResult :=
  ⟨[[[0, 0], [0, 0]], [[1, 1], [1, 1]], [[1, 1], [1, 5]], [[1, 1], [1, 1]]],
    [[[1, 1], [1, 1]], [[0, 0], [0, 0]], [[0, 0], [0, 0]], [[0, 0], [0, 0]]],
    [1, 0, 0, 0, 0, 0], none, [-1, 1, 1, 1]⟩

/-- Claim C5 witness: the amended theorem applied to a concrete pad_asym_Z
run; the padded frames_logical is [-1, 1, 1, 1] of length 4, matching the
padded data extent. -/
theorem claim_C5_witness :
    framesPadded [1, 1, 1] c5_witness_result.frames_logical ∧
      c5_witness_result.frames_logical.length = c5_witness_result.data.length :=
  (claim_C5 [[[1, 1], [1, 1]], [[1, 1], [1, 5]], [[1, 1], [1, 1]]]
    [[[0, 0], [0, 0]], [[0, 0], [0, 0]], [[0, 0], [0, 0]]]
    ⟨[0, 2, 0, 2], [1, 1, 1], [1, 1, 1]⟩ [1, 1, 1] "max" "pad_asym_Z" none [] none
    c5_witness_result (by decide) (by decide)).2 (by decide)
